import Mathlib

/-!
Shallow embedding of the edunews crawler (`src/functions/main.py`) and proofs
about its components: the recency filter, summarizer, classifier, listing
extractor, dedup-and-write step, query service and the two entry points.

Strings from the Python side are modelled as `List Char`; the current moment
is a parameter (`NowT`) carrying the current year and the current instant in
seconds; the Firestore store is a list of documents.
-/

set_option autoImplicit false

namespace EduNews

/-! ### Character and string utilities -/

/-- Whether `p` is a prefix of `s` (model of Python `str.startswith`). -/
def startsWith : List Char → List Char → Bool
  | [], _ => true
  | _ :: _, [] => false
  | p :: ps, c :: cs => p == c && startsWith ps cs

/-- Whether `needle` occurs as a contiguous substring of `hay`
(model of Python `needle in hay`). -/
def containsSub (needle : List Char) : List Char → Bool
  | [] => needle.isEmpty
  | c :: rest => startsWith needle (c :: rest) || containsSub needle rest

/-- Model of Python `str.strip`. -/
def pyStrip (l : List Char) : List Char :=
  ((l.dropWhile Char.isWhitespace).reverse.dropWhile Char.isWhitespace).reverse

/-- Model of `str.split(sep)` for a one-character separator, over `List Char`. -/
def splitOnChar (sep : Char) : List Char → List (List Char)
  | [] => [[]]
  | c :: cs =>
    match splitOnChar sep cs with
    | [] => [[c]]
    | h :: t => if c = sep then [] :: h :: t else (c :: h) :: t

/-- The decimal digit character for `d < 10` (model of `str(n)` digit by digit). -/
def digitChar : Nat → Char
  | 0 => '0' | 1 => '1' | 2 => '2' | 3 => '3' | 4 => '4'
  | 5 => '5' | 6 => '6' | 7 => '7' | 8 => '8' | _ => '9'

/-- Numeric value of a decimal digit character. -/
def digitVal (c : Char) : Nat := c.toNat - 48

/-- Fuel-driven decimal rendering; the fuel always suffices when it exceeds
the number. -/
def natCharsAux : Nat → Nat → List Char
  | 0, _ => []
  | fuel + 1, n =>
    if n < 10 then [digitChar n]
    else natCharsAux fuel (n / 10) ++ [digitChar (n % 10)]

/-- Decimal rendering of a natural number (model of Python `f"{n}"`). -/
def natChars (n : Nat) : List Char := natCharsAux (n + 1) n

/-- Numeric value of a digit string (used by the `strptime` model). -/
def parseVal (l : List Char) : Nat :=
  l.foldl (fun a c => 10 * a + digitVal c) 0

/-! ### Calendar arithmetic

`is_recent_article` compares `datetime` values; we model a `datetime` at
midnight by its day number (proleptic Gregorian rata die) times 86400. -/

def leapYear (y : Nat) : Bool := y % 4 = 0 && (y % 100 ≠ 0 || y % 400 = 0)

def daysInMonth (y m : Nat) : Nat :=
  match m with
  | 2 => if leapYear y then 29 else 28
  | 4 => 30 | 6 => 30 | 9 => 30 | 11 => 30
  | _ => 31

/-- Days in year `y` strictly before month `m` (for `1 ≤ m ≤ 12`). -/
def cumDaysBefore (y m : Nat) : Nat :=
  (match m with
   | 1 => 0 | 2 => 31 | 3 => 59 | 4 => 90 | 5 => 120 | 6 => 151
   | 7 => 181 | 8 => 212 | 9 => 243 | 10 => 273 | 11 => 304 | _ => 334)
  + (if 3 ≤ m ∧ leapYear y then 1 else 0)

/-- Day number of the date `y-m-d` in the proleptic Gregorian calendar
(day 0 is 0001-01-01). -/
def ordDays (y m d : Nat) : Nat :=
  365 * (y - 1) + (y - 1) / 4 + (y - 1) / 400 - (y - 1) / 100
    + cumDaysBefore y m + (d - 1)

/-- Seconds-since-epoch of midnight on `y-m-d`. -/
def ordSec (y m d : Nat) : Int := ((ordDays y m d * 86400 : Nat) : Int)

/-- The current moment as seen by `datetime.now()`: its calendar year and the
instant in seconds since the same epoch as `ordSec`. -/
structure NowT where
  year : Nat
  sec : Int
deriving DecidableEq

/-! ### The `strptime` model

`is_recent_article` tries the formats `%Y-%m-%d`, `%Y.%m.%d`, `%m-%d`,
`%m.%d`.  Over strings drawn from the cleaned alphabet (digits, `-`, `.`),
CPython's `strptime` for these formats is equivalent to: split on the
separator, require the exact component count, and match each component
against its directive (`%Y` is exactly four digits, `%m` is `1[0-2]|0[1-9]|[1-9]`,
`%d` is `3[01]|[12]\x64|0[1-9]|[1-9]`), then validate the day against the
month length; a missing year defaults to 1900. -/

/-- Component match for `%Y`: exactly four digits, year at least 1 is
checked later by the `datetime` constructor. -/
def yearMatch (l : List Char) : Option Nat :=
  if l.all Char.isDigit ∧ l.length = 4 then some (parseVal l) else none

/-- Component match for `%m`: one digit `1-9` or two digits `01-12`. -/
def monthMatch (l : List Char) : Option Nat :=
  if l.all Char.isDigit ∧
      ((l.length = 1 ∧ 1 ≤ parseVal l ∧ parseVal l ≤ 9) ∨
       (l.length = 2 ∧ 1 ≤ parseVal l ∧ parseVal l ≤ 12)) then
    some (parseVal l)
  else none

/-- Component match for `%d`: one digit `1-9` or two digits `01-31`. -/
def dayMatch (l : List Char) : Option Nat :=
  if l.all Char.isDigit ∧
      ((l.length = 1 ∧ 1 ≤ parseVal l ∧ parseVal l ≤ 9) ∨
       (l.length = 2 ∧ 1 ≤ parseVal l ∧ parseVal l ≤ 31)) then
    some (parseVal l)
  else none

/-- `datetime.strptime` for the four formats used by the filter; `hasYear`
distinguishes `%Y<sep>%m<sep>%d` from `%m<sep>%d` (year defaults to 1900). -/
def strptimeModel : Bool → Char → List Char → Option (Nat × Nat × Nat)
  | true, sep, s =>
    (match splitOnChar sep s with
     | [ys, ms, ds] =>
       match yearMatch ys, monthMatch ms, dayMatch ds with
       | some y, some m, some d =>
         if 1 ≤ y ∧ d ≤ daysInMonth y m then some (y, m, d) else none
       | _, _, _ => none
     | _ => none)
  | false, sep, s =>
    (match splitOnChar sep s with
     | [ms, ds] =>
       match monthMatch ms, dayMatch ds with
       | some m, some d =>
         if d ≤ daysInMonth 1900 m then some (1900, m, d) else none
       | _, _ => none
     | _ => none)

/-! ### The recency filter (`is_recent_article`) -/

/-- `re.sub` keeping only digits, hyphens and periods. -/
def cleanChars (l : List Char) : List Char :=
  l.filter fun c => c.isDigit || c = '-' || c = '.'

/-- One iteration's mutation of `date_text`: if the current text splits into
exactly two hyphen- or two period-delimited components, prepend the current
year and a hyphen (`f"\x7bdatetime.now().year\x7d-\x7bdate_text\x7d"`). -/
def recentStep (now : NowT) (text : List Char) : List Char :=
  if (splitOnChar '-' text).length = 2 ∨ (splitOnChar '.' text).length = 2 then
    natChars now.year ++ '-' :: text
  else text

/-- The format list tried in order: `%Y-%m-%d`, `%Y.%m.%d`, `%m-%d`, `%m.%d`. -/
def fmtList : List (Bool × Char) := [(true, '-'), (true, '.'), (false, '-'), (false, '.')]

/-- The `for fmt in [...]` loop of `is_recent_article`, carrying the mutated
`date_text`.  On a successful parse it returns whether the parsed date (at
midnight) is on or after the current moment minus 30 days (2592000 seconds);
if every format fails it returns `true`. -/
def recentLoop (now : NowT) : List (Bool × Char) → List Char → Bool
  | [], _ => true
  | (hy, sep) :: rest, text =>
    match strptimeModel hy sep (recentStep now text) with
    | some (y, m, d) => decide (ordSec y m d ≥ now.sec - 2592000)
    | none => recentLoop now rest (recentStep now text)

/-- Model of `is_recent_article`. -/
def is_recent_article (now : NowT) (date_text : List Char) : Bool :=
  recentLoop now fmtList (cleanChars date_text)

/-- The current moment 2024-02-01 (midnight) used by the spec's examples. -/
def nowFeb2024 : NowT := { year := 2024, sec := ordSec 2024 2 1 }

/-- Claim C5: with "now" fixed at 2024-02-01, the recency filter accepts
"2024-01-15" (within 30 days), rejects "2023-01-01", and accepts the
unparseable text "공지" through the permissive fallback. -/
theorem C5_recency_examples :
    is_recent_article nowFeb2024 ("2024-01-15".toList) = true ∧
    is_recent_article nowFeb2024 ("2023-01-01".toList) = false ∧
    is_recent_article nowFeb2024 ("공지".toList) = true := by
  refine ⟨by decide, by decide, by decide⟩

/-! ### The summarizer (`extract_content_summary`) -/

/-- The ordered keyword → summary mapping (Python dict, declaration order). -/
def summaryKeywords : List (List Char × String) :=
  [("입시".toList, "대학입시 관련 중요 공지사항입니다."),
   ("수능".toList, "대학수학능력시험 관련 안내사항입니다."),
   ("전형".toList, "대학 입학전형 변경 또는 안내사항입니다."),
   ("모집".toList, "대학 신입생 모집 관련 정보입니다."),
   ("원서".toList, "입학원서 접수 관련 안내입니다."),
   ("면접".toList, "입학 면접전형 관련 정보입니다."),
   ("특목고".toList, "특목고 입학 관련 안내사항입니다."),
   ("자사고".toList, "자율형사립고 관련 정보입니다.")]

/-- The fallback summary when no keyword occurs in the title. -/
def defaultSummary : String := "입시 관련 중요 정보를 확인하시기 바랍니다."

/-- The `for keyword, summary in keywords.items()` loop. -/
def summaryLoop (title : List Char) : List (List Char × String) → String
  | [] => defaultSummary
  | (k, s) :: rest => if containsSub k title then s else summaryLoop title rest

/-- Model of `extract_content_summary`. -/
def extract_content_summary (title : List Char) : String :=
  summaryLoop title summaryKeywords

theorem summaryLoop_eq_find (title : List Char) :
    ∀ l : List (List Char × String),
      summaryLoop title l =
        ((l.find? fun p => containsSub p.1 title).map Prod.snd).getD defaultSummary
  | [] => rfl
  | (k, s) :: rest => by
    by_cases h : containsSub k title
    · simp [summaryLoop, List.find?, h]
    · simp only [summaryLoop, List.find?, h, if_neg h, Bool.false_eq_true,
        not_false_eq_true]
      simpa using summaryLoop_eq_find title rest

/-- Claim C4: the summarizer returns the mapped sentence of the
earliest-declared keyword occurring (case-sensitively) as a substring of the
title, and the generic fallback sentence when no keyword occurs. -/
theorem C4_summary_first_match (title : List Char) :
    extract_content_summary title =
      ((summaryKeywords.find? fun p => containsSub p.1 title).map Prod.snd).getD
        defaultSummary :=
  summaryLoop_eq_find title summaryKeywords

/-! ### The classifier (`classify_article`) -/

/-- ASCII lowercasing of every character (`title.lower()`; Python's full
Unicode lowering agrees with this on the Hangul keywords involved). -/
def lowerChars (l : List Char) : List Char := l.map Char.toLower

/-- `any(word in title_lower for word in words)`. -/
def hasAnyKeyword (ws : List (List Char)) (t : List Char) : Bool :=
  ws.any fun w => containsSub w t

def majorKeywords : List (List Char) :=
  ["대입".toList, "수능".toList, "입시".toList, "전형".toList]

def universityKeywords : List (List Char) :=
  ["대학교".toList, "대학".toList]

def scheduleKeywords : List (List Char) :=
  ["일정".toList, "모집".toList, "접수".toList, "마감".toList]

/-- Model of `classify_article`. -/
def classify_article (title : List Char) : String :=
  let tl := lowerChars title
  if hasAnyKeyword majorKeywords tl then "major_news"
  else if hasAnyKeyword universityKeywords tl then "university_news"
  else if hasAnyKeyword scheduleKeywords tl then "exam_schedule"
  else "education_office_news"

/-- Claim C3: classification is total over the four categories; a core
admissions term forces `major_news`, otherwise a university term forces
`university_news`, otherwise a schedule term forces `exam_schedule`, and
otherwise the default `education_office_news` is returned. -/
theorem C3_classifier_priority (title : List Char) :
    (classify_article title = "major_news" ∨
     classify_article title = "university_news" ∨
     classify_article title = "exam_schedule" ∨
     classify_article title = "education_office_news") ∧
    (hasAnyKeyword majorKeywords (lowerChars title) = true →
      classify_article title = "major_news") ∧
    (hasAnyKeyword majorKeywords (lowerChars title) = false →
      hasAnyKeyword universityKeywords (lowerChars title) = true →
      classify_article title = "university_news") ∧
    (hasAnyKeyword majorKeywords (lowerChars title) = false →
      hasAnyKeyword universityKeywords (lowerChars title) = false →
      hasAnyKeyword scheduleKeywords (lowerChars title) = true →
      classify_article title = "exam_schedule") ∧
    (hasAnyKeyword majorKeywords (lowerChars title) = false →
      hasAnyKeyword universityKeywords (lowerChars title) = false →
      hasAnyKeyword scheduleKeywords (lowerChars title) = false →
      classify_article title = "education_office_news") := by
  unfold classify_article
  cases h1 : hasAnyKeyword majorKeywords (lowerChars title) <;>
    cases h2 : hasAnyKeyword universityKeywords (lowerChars title) <;>
      cases h3 : hasAnyKeyword scheduleKeywords (lowerChars title) <;>
        simp [h1, h2, h3]

/-- Witness for C3 at the spec's example title, which contains both a core
admissions term and a university term: `major_news` wins. -/
theorem C3_witness :
    classify_article ("서울대학교 수능 전형 안내".toList) = "major_news" :=
  (C3_classifier_priority ("서울대학교 수능 전형 안내".toList)).2.1 (by decide)

/-! ### Listing rows and the per-office crawl (`crawl_education_office`) -/

/-- The element located by the title selector: its text and its optional
`href` attribute. -/
structure TitleEl where
  text : List Char
  href : Option (List Char)
deriving DecidableEq

/-- One selected listing row: the optional title element and the optional
date element's text. -/
structure RowEl where
  titleEl : Option TitleEl
  dateEl : Option (List Char)
deriving DecidableEq

/-- A candidate article as assembled by the crawl loop (the server-assigned
creation timestamp is added at write time). -/
structure Article where
  title : List Char
  source : String
  link : List Char
  date : List Char
  content : String
  category : String
deriving DecidableEq

/-- Relative-link resolution: a nonempty link that does not start with
`http` is prefixed with the first three slash-delimited segments of the
endpoint URL joined by slashes. -/
def resolveLink (url link : List Char) : List Char :=
  if link.isEmpty || startsWith ("http".toList) link then link
  else List.intercalate ['/'] ((splitOnChar '/' url).take 3) ++ link

/-- The per-row body of the crawl loop: skip rows without a title element,
build the article when the date text passes the recency filter. -/
def processRows (url : List Char) (officeName : String) (now : NowT) :
    List RowEl → List Article
  | [] => []
  | r :: rest =>
    match r.titleEl with
    | none => processRows url officeName now rest
    | some te =>
      let title := pyStrip te.text
      let dateText := match r.dateEl with
        | some dt => pyStrip dt
        | none => []
      if is_recent_article now dateText then
        { title := title
          source := officeName
          link := resolveLink url (te.href.getD [])
          date := dateText
          content := extract_content_summary title
          category := classify_article title } :: processRows url officeName now rest
      else processRows url officeName now rest

/-- One entry of the source registry: endpoint URL and the three selectors. -/
structure OfficeConfig where
  url : List Char
  selector : String
  title_selector : String
  date_selector : String
deriving DecidableEq

/-- The static source registry `EDUCATION_OFFICES`, in declaration order. -/
def EDUCATION_OFFICES : List (String × OfficeConfig) :=
  [("교육부",
    { url := "https://www.moe.go.kr/boardCnts/list.do?boardID=294".toList
      selector := ".board-list-table tbody tr"
      title_selector := ".title a"
      date_selector := ".date" }),
   ("서울시교육청",
    { url := "https://www.sen.go.kr/web/services/bbs/bbsList.action?bbsBean.bbsCd=140".toList
      selector := ".bbs-list tbody tr"
      title_selector := ".subject a"
      date_selector := ".reg-date" }),
   ("경기도교육청",
    { url := "https://www.goe.go.kr/home/bbs/bbsList.do?menuNo=1020408".toList
      selector := ".board_list tbody tr"
      title_selector := ".title a"
      date_selector := ".date" }),
   ("인천시교육청",
    { url := "https://www.ice.go.kr/contents.do?menuNo=200047".toList
      selector := ".list tbody tr"
      title_selector := ".subject a"
      date_selector := ".date" })]

/-- The ambient effects of one pass: what the HTTP fetch-and-select yields per
source name (the selected row elements, or a fetch/parse failure), the current
moment, and whether the final batch commit raises. -/
structure CrawlEnv where
  fetch : String → Except String (List RowEl)
  now : NowT
  commitError : Option String

/-- Model of `crawl_education_office`: a fetch/parse failure is caught and
yields no articles; otherwise the first five selected rows are processed. -/
def crawl_education_office (officeName : String) (config : OfficeConfig)
    (env : CrawlEnv) : List Article :=
  match env.fetch officeName with
  | .error _ => []
  | .ok elements => processRows config.url officeName env.now (elements.take 5)

/-- The status record returned by the scheduled entry point. -/
structure StatusRec where
  status : String
  articles_count : Option Nat
  error : Option String
deriving DecidableEq

/-- Model of `weekly_news_crawler`: crawl every registered source in order,
then commit the collected articles; an exception from the commit is caught by
the top-level handler and reported as an error record.  When nothing was
collected the save step is skipped. -/
def weekly_news_crawler (env : CrawlEnv) : StatusRec :=
  let all := (EDUCATION_OFFICES.map fun p => crawl_education_office p.1 p.2 env).flatten
  if all.isEmpty then
    { status := "success", articles_count := some 0, error := none }
  else
    match env.commitError with
    | some e => { status := "error", articles_count := none, error := some e }
    | none => { status := "success", articles_count := some all.length, error := none }

/-- Model of `manual_crawl`: OPTIONS short-circuits to 204; otherwise the
scheduled entry point's result is returned as the body with HTTP status 200
(the 500 branch would require `weekly_news_crawler` itself to raise). -/
def manual_crawl (method : String) (env : CrawlEnv) : Option StatusRec × Nat :=
  if method = "OPTIONS" then (none, 204)
  else (some (weekly_news_crawler env), 200)

/-! ### The deduplicating store writer and the query service -/

/-- A persisted document: the article data plus the server-assigned creation
timestamp. -/
structure StoredDoc where
  data : Article
  created_at : Nat
deriving DecidableEq

/-- Model of `save_articles_to_firestore`: for each candidate, query the
already-committed store for a document with the same title and source
(`limit 1`); stage the candidate into the batch when none exists; finally
commit the batch.  The staged batch is not visible to the existence checks. -/
def save_articles_to_firestore (commitTime : Nat) (store : List StoredDoc)
    (articles : List Article) : List StoredDoc :=
  let batch := articles.filter fun a =>
    ((store.filter fun d =>
        decide (d.data.title = a.title ∧ d.data.source = a.source)).take 1).isEmpty
  store ++ batch.map fun a => { data := a, created_at := commitTime }

/-- A candidate article as the crawl would assemble it. -/
def dupArticle : Article :=
  { title := "2024 대입 전형 안내".toList
    source := "교육부"
    link := []
    date := "01-15".toList
    content := extract_content_summary ("2024 대입 전형 안내".toList)
    category := classify_article ("2024 대입 전형 안내".toList) }

/-- Claim C1 (evaluation at the failing input): starting from an empty store,
dedup-and-write on two candidates with the same (title, source) pair commits
both of them, so the store ends with two records for that pair — the
existence check consults only the committed store, never the staged batch. -/
theorem C1_same_pass_duplicate_slips_through :
    ((save_articles_to_firestore 0 [] [dupArticle, dupArticle]).filter fun d =>
      decide (d.data.title = dupArticle.title ∧
        d.data.source = dupArticle.source)).length = 2 := by
  decide

/-- Descending order on creation timestamps, as `order_by('created_at',
DESCENDING)`. -/
def byCreatedDesc (a b : StoredDoc) : Prop := b.created_at ≤ a.created_at

instance : DecidableRel byCreatedDesc :=
  fun a b => Nat.decLe b.created_at a.created_at

instance : IsTotal StoredDoc byCreatedDesc :=
  ⟨fun a b => Nat.le_total b.created_at a.created_at⟩

instance : IsTrans StoredDoc byCreatedDesc :=
  ⟨fun _ _ _ hab hbc => Nat.le_trans hbc hab⟩

/-- One category's query: matching documents, newest first, capped at 5. -/
def queryCategory (store : List StoredDoc) (cat : String) : List StoredDoc :=
  (List.insertionSort byCreatedDesc
    (store.filter fun d => decide (d.data.category = cat))).take 5

/-- The `news_data` keys of `get_latest_news`, in declaration order. -/
def newsCategories : List String :=
  ["major_news", "education_office_news", "university_news", "exam_schedule"]

/-- Model of `get_latest_news`'s query loop: the mapping from each category
to its article list. -/
def get_latest_news (store : List StoredDoc) : List (String × List StoredDoc) :=
  newsCategories.map fun c => (c, queryCategory store c)

/-! ### Claims about the extractor and the crawl pass -/

/-- Claim C6: when the row selector matches more than five elements, exactly
the first five (in document order) are processed; everything after them is
ignored regardless of content. -/
theorem C6_first_five_rows (officeName : String) (config : OfficeConfig)
    (env : CrawlEnv) (rows rest : List RowEl)
    (hfetch : env.fetch officeName = .ok (rows ++ rest))
    (hlen : rows.length = 5) :
    crawl_education_office officeName config env =
      processRows config.url officeName env.now rows := by
  have htake : (rows ++ rest).take 5 = rows := by
    rw [← hlen]
    exact List.take_left rows rest
  have hstep : crawl_education_office officeName config env =
      processRows config.url officeName env.now ((rows ++ rest).take 5) := by
    unfold crawl_education_office
    rw [hfetch]
  rw [hstep, htake]

/-- A listing row with the given title text, no link and no date. -/
def sampleRow (t : String) : RowEl :=
  { titleEl := some { text := t.toList, href := none }, dateEl := none }

/-- An environment whose first source yields eight rows. -/
def c6Env : CrawlEnv :=
  { fetch := fun n =>
      if n = "교육부" then
        .ok [sampleRow "r1", sampleRow "r2", sampleRow "r3", sampleRow "r4",
             sampleRow "r5", sampleRow "r6", sampleRow "r7", sampleRow "r8"]
      else .ok []
    now := nowFeb2024
    commitError := none }

/-- Witness for C6: with eight matching rows, the crawl's result is the one
computed from the first five rows alone. -/
theorem C6_witness :
    crawl_education_office "교육부" (EDUCATION_OFFICES.get ⟨0, by decide⟩).2 c6Env =
      processRows (EDUCATION_OFFICES.get ⟨0, by decide⟩).2.url "교육부" c6Env.now
        [sampleRow "r1", sampleRow "r2", sampleRow "r3", sampleRow "r4",
         sampleRow "r5"] :=
  C6_first_five_rows "교육부" (EDUCATION_OFFICES.get ⟨0, by decide⟩).2 c6Env
    [sampleRow "r1", sampleRow "r2", sampleRow "r3", sampleRow "r4", sampleRow "r5"]
    [sampleRow "r6", sampleRow "r7", sampleRow "r8"] (by rfl) (by rfl)

/-- Claim C7 (counterexample): the empty link — extracted when a row's title
element has no `href` — does not start with the scheme prefix, yet it is
stored as-is rather than being resolved against the endpoint's
scheme-host-port segments. -/
theorem C7_counterexample :
    startsWith ("http".toList) ([] : List Char) = false ∧
    resolveLink ("https://example.go.kr/path?x=1".toList) [] ≠
      List.intercalate ['/']
        ((splitOnChar '/' ("https://example.go.kr/path?x=1".toList)).take 3)
        ++ ([] : List Char) := by
  refine ⟨rfl, by decide⟩

/-- Claim C7 (amended): every nonempty row link that does not start with
`http` is stored as the first three slash-delimited segments of the endpoint
URL joined by slashes, with the row link appended; in particular the spec's
example endpoint and row link resolve as stated. -/
theorem C7_relative_link_resolution :
    (∀ url link : List Char, link ≠ [] →
      startsWith ("http".toList) link = false →
      resolveLink url link =
        List.intercalate ['/'] ((splitOnChar '/' url).take 3) ++ link) ∧
    resolveLink ("https://example.go.kr/path?x=1".toList) ("/view?id=5".toList) =
      ("https://example.go.kr/view?id=5".toList) := by
  constructor
  · intro url link h1 h2
    have hemp : link.isEmpty = false := by
      cases link with
      | nil => exact absurd rfl h1
      | cons c cs => rfl
    unfold resolveLink
    rw [hemp, h2]
    rfl
  · decide

/-- Witness for C7 at the spec's example. -/
theorem C7_witness :
    resolveLink ("https://example.go.kr/path?x=1".toList) ("/view?id=5".toList) =
      List.intercalate ['/']
        ((splitOnChar '/' ("https://example.go.kr/path?x=1".toList)).take 3)
        ++ ("/view?id=5".toList) :=
  C7_relative_link_resolution.1 _ _ (by decide) (by decide)

/-- Claim C8: every category query returns at most five documents of that
category ordered by creation timestamp descending, and after inserting
exactly one document per category the returned mapping holds exactly that
document in each category's list. -/
theorem C8_query_service :
    (∀ (store : List StoredDoc) (cat : String),
      (queryCategory store cat).length ≤ 5 ∧
      List.Pairwise byCreatedDesc (queryCategory store cat) ∧
      (∀ d ∈ queryCategory store cat, d.data.category = cat)) ∧
    (∀ d1 d2 d3 d4 : StoredDoc,
      d1.data.category = "major_news" →
      d2.data.category = "education_office_news" →
      d3.data.category = "university_news" →
      d4.data.category = "exam_schedule" →
      get_latest_news [d1, d2, d3, d4] =
        [("major_news", [d1]), ("education_office_news", [d2]),
         ("university_news", [d3]), ("exam_schedule", [d4])]) := by
  constructor
  · intro store cat
    refine ⟨List.length_take_le 5 _, ?_, ?_⟩
    · have hs : List.Pairwise byCreatedDesc
          (List.insertionSort byCreatedDesc
            (store.filter fun d => decide (d.data.category = cat))) :=
        List.sorted_insertionSort byCreatedDesc _
      exact hs.sublist (List.take_sublist 5 _)
    · intro d hd
      have hd1 : d ∈ List.insertionSort byCreatedDesc
          (store.filter fun d => decide (d.data.category = cat)) :=
        List.mem_of_mem_take hd
      have hd2 : d ∈ store.filter fun d => decide (d.data.category = cat) :=
        (List.perm_insertionSort byCreatedDesc _).mem_iff.mp hd1
      exact of_decide_eq_true (List.mem_filter.mp hd2).2
  · intro d1 d2 d3 d4 h1 h2 h3 h4
    simp [get_latest_news, newsCategories, queryCategory, List.filter,
      h1, h2, h3, h4, List.insertionSort, List.orderedInsert]

/-- A stored document with the given category and creation timestamp. -/
def sampleDoc (cat : String) (t : Nat) : StoredDoc :=
  { data := { title := [], source := "교육부", link := [], date := [],
              content := "", category := cat }
    created_at := t }

/-- Witness for C8: one stored document per category yields exactly one
document in each category's list. -/
theorem C8_witness :
    get_latest_news
      [sampleDoc "major_news" 4, sampleDoc "education_office_news" 3,
       sampleDoc "university_news" 2, sampleDoc "exam_schedule" 1] =
      [("major_news", [sampleDoc "major_news" 4]),
       ("education_office_news", [sampleDoc "education_office_news" 3]),
       ("university_news", [sampleDoc "university_news" 2]),
       ("exam_schedule", [sampleDoc "exam_schedule" 1])] :=
  C8_query_service.2 (sampleDoc "major_news" 4)
    (sampleDoc "education_office_news" 3) (sampleDoc "university_news" 2)
    (sampleDoc "exam_schedule" 1) rfl rfl rfl rfl

/-- The collected article list of one pass, in registry order. -/
def allArticles (env : CrawlEnv) : List Article :=
  (EDUCATION_OFFICES.map fun p => crawl_education_office p.1 p.2 env).flatten

theorem weekly_success_of_commit_ok (env : CrawlEnv)
    (hc : env.commitError = none) :
    (weekly_news_crawler env).status = "success" ∧
    (weekly_news_crawler env).articles_count = some (allArticles env).length := by
  unfold weekly_news_crawler
  by_cases h : ((EDUCATION_OFFICES.map fun p =>
      crawl_education_office p.1 p.2 env).flatten).isEmpty
  · have hnil : (EDUCATION_OFFICES.map fun p =>
        crawl_education_office p.1 p.2 env).flatten = [] :=
      List.isEmpty_iff.mp h
    simp [h, allArticles, hnil]
  · simp [h, hc, allArticles]

/-- Claim C9: a failing fetch makes its source contribute zero articles, the
pass continues with the remaining sources in registry order, and the
scheduled entry point still reports success, counting exactly the other
sources' articles. -/
theorem C9_per_source_failure_isolated (env : CrawlEnv) (n msg : String)
    (hmem : n ∈ EDUCATION_OFFICES.map Prod.fst)
    (hfail : env.fetch n = .error msg)
    (hcommit : env.commitError = none) :
    (∀ config, crawl_education_office n config env = []) ∧
    (weekly_news_crawler env).status = "success" ∧
    (weekly_news_crawler env).articles_count =
      some (((EDUCATION_OFFICES.filter fun p => decide (p.1 ≠ n)).map
        fun p => crawl_education_office p.1 p.2 env).flatten.length) := by
  have hzero : ∀ config, crawl_education_office n config env = [] := by
    intro config
    unfold crawl_education_office
    rw [hfail]
  obtain ⟨hst, hct⟩ := weekly_success_of_commit_ok env hcommit
  refine ⟨hzero, hst, ?_⟩
  rw [hct]
  have hmem' : n = "교육부" ∨ n = "서울시교육청" ∨ n = "경기도교육청" ∨
      n = "인천시교육청" := by
    simpa [EDUCATION_OFFICES] using hmem
  rcases hmem' with rfl | rfl | rfl | rfl <;>
    simp [allArticles, EDUCATION_OFFICES, List.filter, hzero]

/-- An environment in which every fetch fails. -/
def c9Env : CrawlEnv :=
  { fetch := fun _ => .error "connection timed out"
    now := nowFeb2024
    commitError := none }

/-- Witness for C9: with the first source failing, the pass still reports
success. -/
theorem C9_witness : (weekly_news_crawler c9Env).status = "success" :=
  (C9_per_source_failure_isolated c9Env "교육부" "connection timed out"
    (by decide) rfl rfl).2.1

/-- Claim C10: a non-OPTIONS manual trigger always answers with HTTP 200 and
the scheduled entry point's record as the body; when that record reports an
error it stems from the caught commit failure and is carried inside the body,
so the endpoint's 500 branch is not reached by crawl failures. -/
theorem C10_manual_trigger_returns_200 (method : String) (env : CrawlEnv)
    (hm : method ≠ "OPTIONS") :
    (manual_crawl method env).2 = 200 ∧
    (manual_crawl method env).1 = some (weekly_news_crawler env) ∧
    ((weekly_news_crawler env).status = "error" →
      ∃ e, env.commitError = some e ∧
        (weekly_news_crawler env).error = some e) := by
  refine ⟨by simp [manual_crawl, hm], by simp [manual_crawl, hm], ?_⟩
  intro herr
  unfold weekly_news_crawler at herr ⊢
  by_cases h : ((EDUCATION_OFFICES.map fun p =>
      crawl_education_office p.1 p.2 env).flatten).isEmpty
  · simp [h] at herr
  · cases hc : env.commitError with
    | none => simp [h, hc] at herr
    | some e => exact ⟨e, rfl, by simp [h, hc]⟩

/-- An environment whose crawl collects one article but whose batch commit
fails. -/
def c10Env : CrawlEnv :=
  { fetch := fun n => if n = "교육부" then .ok [sampleRow "공지"] else .ok []
    now := nowFeb2024
    commitError := some "firestore unavailable" }

/-- Witness for C10: even with a failing commit, the manual trigger answers
200. -/
theorem C10_witness : (manual_crawl "GET" c10Env).2 = 200 :=
  (C10_manual_trigger_returns_200 "GET" c10Env (by decide)).1

/-! ### Digit-string and split lemmas for the recency-filter proof -/

theorem digitChar_isDigit : ∀ d : Nat, (digitChar d).isDigit = true
  | 0 => rfl | 1 => rfl | 2 => rfl | 3 => rfl | 4 => rfl
  | 5 => rfl | 6 => rfl | 7 => rfl | 8 => rfl | _ + 9 => rfl

theorem digitVal_digitChar (d : Nat) (h : d < 10) :
    digitVal (digitChar d) = d := by
  interval_cases d <;> rfl

theorem natCharsAux_fuel :
    ∀ f1 f2 n : Nat, n < f1 → n < f2 → natCharsAux f1 n = natCharsAux f2 n := by
  intro f1
  induction f1 with
  | zero => intro f2 n h1 _; omega
  | succ f ih =>
    intro f2 n h1 h2
    cases f2 with
    | zero => omega
    | succ g =>
      show natCharsAux (f + 1) n = natCharsAux (g + 1) n
      unfold natCharsAux
      by_cases hn : n < 10
      · rw [if_pos hn, if_pos hn]
      · rw [if_neg hn, if_neg hn,
          ih g (n / 10) (by omega) (by omega)]

theorem natChars_base {n : Nat} (h : n < 10) : natChars n = [digitChar n] := by
  unfold natChars natCharsAux
  rw [if_pos h]

theorem natChars_step {n : Nat} (h : 10 ≤ n) :
    natChars n = natChars (n / 10) ++ [digitChar (n % 10)] := by
  have hdef : natChars n =
      if n < 10 then [digitChar n]
      else natCharsAux n (n / 10) ++ [digitChar (n % 10)] := rfl
  rw [hdef, if_neg (by omega),
    natCharsAux_fuel n (n / 10 + 1) (n / 10) (by omega) (by omega)]
  rfl

theorem natChars_all_digits : ∀ n : Nat, ∀ c ∈ natChars n, c.isDigit = true := by
  intro n
  induction n using Nat.strong_induction_on with
  | _ n ih =>
    intro c hc
    by_cases h : n < 10
    · rw [natChars_base h, List.mem_singleton] at hc
      subst hc
      exact digitChar_isDigit _
    · rw [natChars_step (by omega), List.mem_append, List.mem_singleton] at hc
      rcases hc with hc | hc
      · exact ih (n / 10) (Nat.div_lt_self (by omega) (by omega)) c hc
      · subst hc
        exact digitChar_isDigit _

theorem parseVal_append_digit (l : List Char) (c : Char) :
    parseVal (l ++ [c]) = 10 * parseVal l + digitVal c := by
  unfold parseVal
  rw [List.foldl_append]
  rfl

theorem parseVal_natChars : ∀ n : Nat, parseVal (natChars n) = n := by
  intro n
  induction n using Nat.strong_induction_on with
  | _ n ih =>
    by_cases h : n < 10
    · rw [natChars_base h]
      show 10 * 0 + digitVal (digitChar n) = n
      rw [digitVal_digitChar n h]
      omega
    · rw [natChars_step (by omega), parseVal_append_digit,
        ih (n / 10) (Nat.div_lt_self (by omega) (by omega)),
        digitVal_digitChar (n % 10) (Nat.mod_lt n (by omega))]
      omega

theorem natChars_length_lt10 (n : Nat) (h : n < 10) : (natChars n).length = 1 := by
  rw [natChars_base h]
  rfl

theorem natChars_length_ge10 (n : Nat) (h : 10 ≤ n) :
    (natChars n).length = (natChars (n / 10)).length + 1 := by
  rw [natChars_step h]
  simp

theorem natChars_length_four (n : Nat) (h1 : 1000 ≤ n) (h2 : n ≤ 9999) :
    (natChars n).length = 4 := by
  have e1 := natChars_length_ge10 n (by omega)
  have e2 := natChars_length_ge10 (n / 10) (by omega)
  have e3 := natChars_length_ge10 (n / 10 / 10) (by omega)
  have e4 := natChars_length_lt10 (n / 10 / 10 / 10) (by omega)
  omega

theorem yearMatch_natChars (y : Nat) (h1 : 1000 ≤ y) (h2 : y ≤ 9999) :
    yearMatch (natChars y) = some y := by
  unfold yearMatch
  rw [if_pos, parseVal_natChars]
  exact ⟨List.all_eq_true.mpr fun c hc => natChars_all_digits y c hc,
    natChars_length_four y h1 h2⟩

theorem not_mem_of_digits {l : List Char} (h : ∀ c ∈ l, c.isDigit = true)
    {x : Char} (hx : x.isDigit = false) : x ∉ l :=
  fun hm => by rw [h x hm] at hx; cases hx

theorem not_mem_cons_of {x c : Char} {l : List Char} (h1 : x ≠ c) (h2 : x ∉ l) :
    x ∉ c :: l := by
  intro hm
  rcases List.mem_cons.mp hm with h | h
  · exact h1 h
  · exact h2 h

theorem not_mem_append_of {x : Char} {a b : List Char} (h1 : x ∉ a) (h2 : x ∉ b) :
    x ∉ a ++ b := by
  intro hm
  rcases List.mem_append.mp hm with h | h
  · exact h1 h
  · exact h2 h

theorem monthMatch_digits {l : List Char} {m : Nat} (h : monthMatch l = some m) :
    ∀ c ∈ l, c.isDigit = true := by
  unfold monthMatch at h
  split at h
  · rename_i hP
    exact fun c hc => List.all_eq_true.mp hP.1 c hc
  · cases h

theorem dayMatch_digits {l : List Char} {d : Nat} (h : dayMatch l = some d) :
    ∀ c ∈ l, c.isDigit = true := by
  unfold dayMatch at h
  split at h
  · rename_i hP
    exact fun c hc => List.all_eq_true.mp hP.1 c hc
  · cases h

theorem monthMatch_none_of_not_digit {l : List Char} {x : Char}
    (hx : x.isDigit = false) (hm : x ∈ l) : monthMatch l = none := by
  unfold monthMatch
  rw [if_neg]
  intro hP
  rw [List.all_eq_true.mp hP.1 x hm] at hx
  cases hx

theorem splitOnChar_ne_nil (sep : Char) (l : List Char) :
    splitOnChar sep l ≠ [] := by
  cases l with
  | nil => simp [splitOnChar]
  | cons c cs =>
    unfold splitOnChar
    cases splitOnChar sep cs with
    | nil => simp
    | cons h t => by_cases hc : c = sep <;> simp [hc]

theorem splitOnChar_not_mem {sep : Char} :
    ∀ {l : List Char}, sep ∉ l → splitOnChar sep l = [l] := by
  intro l
  induction l with
  | nil => intro _; rfl
  | cons c cs ih =>
    intro h
    have hc : c ≠ sep := fun e => h (e ▸ List.mem_cons_self c cs)
    have hcs : sep ∉ cs := fun hmem => h (List.mem_cons_of_mem c hmem)
    unfold splitOnChar
    rw [ih hcs]
    simp [hc]

theorem splitOnChar_append_sep {sep : Char} :
    ∀ {a : List Char} (r : List Char), sep ∉ a →
      splitOnChar sep (a ++ sep :: r) = a :: splitOnChar sep r := by
  intro a
  induction a with
  | nil =>
    intro r _
    show splitOnChar sep (sep :: r) = [] :: splitOnChar sep r
    have hdef : splitOnChar sep (sep :: r) =
        match splitOnChar sep r with
        | [] => [[sep]]
        | h :: t => if sep = sep then [] :: h :: t else (sep :: h) :: t := rfl
    rw [hdef]
    cases hsp : splitOnChar sep r with
    | nil => exact absurd hsp (splitOnChar_ne_nil sep r)
    | cons h t => simp
  | cons c cs ih =>
    intro r hmem
    have hc : c ≠ sep := fun e => hmem (e ▸ List.mem_cons_self c cs)
    have hcs : sep ∉ cs := fun hin => hmem (List.mem_cons_of_mem c hin)
    show splitOnChar sep (c :: (cs ++ sep :: r)) = (c :: cs) :: splitOnChar sep r
    have hdef : splitOnChar sep (c :: (cs ++ sep :: r)) =
        match splitOnChar sep (cs ++ sep :: r) with
        | [] => [[c]]
        | h :: t => if c = sep then [] :: h :: t else (c :: h) :: t := rfl
    rw [hdef, ih r hcs]
    simp [hc]

/-! ### Claim C2: month-day date texts in the recency filter -/

/-- The current moment 2024-12-01 (midnight), used to exhibit a month-day
date more than 30 days old. -/
def nowDec2024 : NowT := { year := 2024, sec := ordSec 2024 12 1 }

/-- Claim C2 (counterexample): "01.15" cleans to exactly two period-delimited
components, and at "now" = 2024-12-01 the 30-day comparison against
2024-01-15 is false, yet the filter returns true: the year is prepended with
a hyphen ("2024-01.15"), no format ever matches the mutated text, and the
permissive fallback fires. -/
theorem C2_counterexample :
    (splitOnChar '.' (cleanChars ("01.15".toList))).length = 2 ∧
    is_recent_article nowDec2024 ("01.15".toList) = true ∧
    decide (ordSec 2024 1 15 ≥ nowDec2024.sec - 2592000) = false := by
  refine ⟨by decide, by decide, by decide⟩

/-- Claim C2 (amended): a cleaned date text of exactly two hyphen-delimited
components whose parts match the strptime month and day forms (day valid for
that month of the current four-digit year) is parsed after the year is
prepended, and the filter returns the 30-day comparison; a cleaned text of
exactly two period-delimited components never parses — the year is
re-prepended with a hyphen on every attempt — so the filter returns true by
fallback. -/
theorem C2_monthday_parsing :
    (∀ (now : NowT) (raw ms ds : List Char) (m d : Nat),
      1000 ≤ now.year → now.year ≤ 9999 →
      cleanChars raw = ms ++ '-' :: ds →
      monthMatch ms = some m → dayMatch ds = some d →
      d ≤ daysInMonth now.year m →
      is_recent_article now raw =
        decide (ordSec now.year m d ≥ now.sec - 2592000)) ∧
    (∀ (now : NowT) (raw ms ds : List Char),
      '-' ∉ ms → '.' ∉ ms → '-' ∉ ds → '.' ∉ ds →
      cleanChars raw = ms ++ '.' :: ds →
      is_recent_article now raw = true) := by
  constructor
  · intro now raw ms ds m d hy1 hy2 hclean hm hd hvalid
    have hmsd := monthMatch_digits hm
    have hdsd := dayMatch_digits hd
    have hmsh : '-' ∉ ms := not_mem_of_digits hmsd (by decide)
    have hdsh : '-' ∉ ds := not_mem_of_digits hdsd (by decide)
    have hYh : '-' ∉ natChars now.year :=
      not_mem_of_digits (natChars_all_digits now.year) (by decide)
    have hsplit1 : splitOnChar '-' (ms ++ '-' :: ds) = [ms, ds] := by
      rw [splitOnChar_append_sep ds hmsh, splitOnChar_not_mem hdsh]
    have hstep1 : recentStep now (ms ++ '-' :: ds) =
        natChars now.year ++ '-' :: (ms ++ '-' :: ds) := by
      unfold recentStep
      rw [hsplit1]
      have hcond : [ms, ds].length = 2 ∨
          (splitOnChar '.' (ms ++ '-' :: ds)).length = 2 := Or.inl rfl
      rw [if_pos hcond]
    have hsplit2 : splitOnChar '-' (natChars now.year ++ '-' :: (ms ++ '-' :: ds)) =
        [natChars now.year, ms, ds] := by
      rw [splitOnChar_append_sep (ms ++ '-' :: ds) hYh, hsplit1]
    have hparse : strptimeModel true '-'
        (natChars now.year ++ '-' :: (ms ++ '-' :: ds)) = some (now.year, m, d) := by
      simp only [strptimeModel, hsplit2, yearMatch_natChars now.year hy1 hy2, hm, hd]
      rw [if_pos ⟨by omega, hvalid⟩]
    unfold is_recent_article
    rw [hclean]
    simp only [fmtList, recentLoop, hstep1, hparse]
  · intro now raw ms ds hms1 hms2 hds1 hds2 hclean
    have hYd := natChars_all_digits now.year
    have hYh : '-' ∉ natChars now.year := not_mem_of_digits hYd (by decide)
    have hYp : '.' ∉ natChars now.year := not_mem_of_digits hYd (by decide)
    have ht0h : '-' ∉ ms ++ '.' :: ds :=
      not_mem_append_of hms1 (not_mem_cons_of (by decide) hds1)
    have hsh0 : splitOnChar '-' (ms ++ '.' :: ds) = [ms ++ '.' :: ds] :=
      splitOnChar_not_mem ht0h
    have hsp0 : splitOnChar '.' (ms ++ '.' :: ds) = [ms, ds] := by
      rw [splitOnChar_append_sep ds hms2, splitOnChar_not_mem hds2]
    -- iteration 1: the two period components trigger the prepend; %Y-%m-%d
    -- then sees only two hyphen components.
    have hstep1 : recentStep now (ms ++ '.' :: ds) =
        natChars now.year ++ '-' :: (ms ++ '.' :: ds) := by
      unfold recentStep
      rw [hsh0, hsp0]
      have hcond : [ms ++ '.' :: ds].length = 2 ∨ [ms, ds].length = 2 := Or.inr rfl
      rw [if_pos hcond]
    have hsh1 : splitOnChar '-' (natChars now.year ++ '-' :: (ms ++ '.' :: ds)) =
        [natChars now.year, ms ++ '.' :: ds] := by
      rw [splitOnChar_append_sep (ms ++ '.' :: ds) hYh, hsh0]
    have hparse1 : strptimeModel true '-'
        (natChars now.year ++ '-' :: (ms ++ '.' :: ds)) = none := by
      simp only [strptimeModel, hsh1]
    -- iteration 2: two hyphen components trigger another prepend; %Y.%m.%d
    -- sees only two period components.
    have hstep2 : recentStep now (natChars now.year ++ '-' :: (ms ++ '.' :: ds)) =
        natChars now.year ++ '-' :: (natChars now.year ++ '-' :: (ms ++ '.' :: ds)) := by
      unfold recentStep
      rw [hsh1]
      have hcond : [natChars now.year, ms ++ '.' :: ds].length = 2 ∨
          (splitOnChar '.' (natChars now.year ++ '-' :: (ms ++ '.' :: ds))).length = 2 :=
        Or.inl rfl
      rw [if_pos hcond]
    have hA2p : '.' ∉ natChars now.year ++ '-' :: (natChars now.year ++ '-' :: ms) :=
      not_mem_append_of hYp (not_mem_cons_of (by decide)
        (not_mem_append_of hYp (not_mem_cons_of (by decide) hms2)))
    have ht2eq : natChars now.year ++ '-' :: (natChars now.year ++ '-' :: (ms ++ '.' :: ds)) =
        (natChars now.year ++ '-' :: (natChars now.year ++ '-' :: ms)) ++ '.' :: ds := by
      simp [List.append_assoc]
    have hsp2 : splitOnChar '.'
        (natChars now.year ++ '-' :: (natChars now.year ++ '-' :: (ms ++ '.' :: ds))) =
        [natChars now.year ++ '-' :: (natChars now.year ++ '-' :: ms), ds] := by
      rw [ht2eq, splitOnChar_append_sep ds hA2p, splitOnChar_not_mem hds2]
    have hparse2 : strptimeModel true '.'
        (natChars now.year ++ '-' :: (natChars now.year ++ '-' :: (ms ++ '.' :: ds))) =
        none := by
      simp only [strptimeModel, hsp2]
    -- iteration 3: the two period components trigger another prepend; %m-%d
    -- sees four hyphen components.
    have hsh2 : splitOnChar '-'
        (natChars now.year ++ '-' :: (natChars now.year ++ '-' :: (ms ++ '.' :: ds))) =
        [natChars now.year, natChars now.year, ms ++ '.' :: ds] := by
      rw [splitOnChar_append_sep (natChars now.year ++ '-' :: (ms ++ '.' :: ds)) hYh, hsh1]
    have hstep3 : recentStep now
        (natChars now.year ++ '-' :: (natChars now.year ++ '-' :: (ms ++ '.' :: ds))) =
        natChars now.year ++ '-' ::
          (natChars now.year ++ '-' :: (natChars now.year ++ '-' :: (ms ++ '.' :: ds))) := by
      unfold recentStep
      rw [hsh2, hsp2]
      have hcond : [natChars now.year, natChars now.year, ms ++ '.' :: ds].length = 2 ∨
          [natChars now.year ++ '-' :: (natChars now.year ++ '-' :: ms), ds].length = 2 :=
        Or.inr rfl
      rw [if_pos hcond]
    have hsh3 : splitOnChar '-'
        (natChars now.year ++ '-' ::
          (natChars now.year ++ '-' :: (natChars now.year ++ '-' :: (ms ++ '.' :: ds)))) =
        [natChars now.year, natChars now.year, natChars now.year, ms ++ '.' :: ds] := by
      rw [splitOnChar_append_sep
        (natChars now.year ++ '-' :: (natChars now.year ++ '-' :: (ms ++ '.' :: ds))) hYh,
        hsh2]
    have hparse3 : strptimeModel false '-'
        (natChars now.year ++ '-' ::
          (natChars now.year ++ '-' :: (natChars now.year ++ '-' :: (ms ++ '.' :: ds)))) =
        none := by
      simp only [strptimeModel, hsh3]
    -- iteration 4: yet another prepend; %m.%d sees two period components but
    -- the month component contains a hyphen, so it cannot match.
    have hA3p : '.' ∉ natChars now.year ++ '-' ::
        (natChars now.year ++ '-' :: (natChars now.year ++ '-' :: ms)) :=
      not_mem_append_of hYp (not_mem_cons_of (by decide)
        (not_mem_append_of hYp (not_mem_cons_of (by decide)
          (not_mem_append_of hYp (not_mem_cons_of (by decide) hms2)))))
    have ht3eq : natChars now.year ++ '-' ::
        (natChars now.year ++ '-' :: (natChars now.year ++ '-' :: (ms ++ '.' :: ds))) =
        (natChars now.year ++ '-' ::
          (natChars now.year ++ '-' :: (natChars now.year ++ '-' :: ms))) ++ '.' :: ds := by
      simp [List.append_assoc]
    have hsp3 : splitOnChar '.'
        (natChars now.year ++ '-' ::
          (natChars now.year ++ '-' :: (natChars now.year ++ '-' :: (ms ++ '.' :: ds)))) =
        [natChars now.year ++ '-' ::
          (natChars now.year ++ '-' :: (natChars now.year ++ '-' :: ms)), ds] := by
      rw [ht3eq, splitOnChar_append_sep ds hA3p, splitOnChar_not_mem hds2]
    have hstep4 : recentStep now
        (natChars now.year ++ '-' ::
          (natChars now.year ++ '-' :: (natChars now.year ++ '-' :: (ms ++ '.' :: ds)))) =
        natChars now.year ++ '-' ::
          (natChars now.year ++ '-' ::
            (natChars now.year ++ '-' :: (natChars now.year ++ '-' :: (ms ++ '.' :: ds)))) := by
      unfold recentStep
      rw [hsh3, hsp3]
      have hcond :
          [natChars now.year, natChars now.year, natChars now.year,
            ms ++ '.' :: ds].length = 2 ∨
          [natChars now.year ++ '-' ::
            (natChars now.year ++ '-' :: (natChars now.year ++ '-' :: ms)),
            ds].length = 2 := Or.inr rfl
      rw [if_pos hcond]
    have hA4p : '.' ∉ natChars now.year ++ '-' ::
        (natChars now.year ++ '-' ::
          (natChars now.year ++ '-' :: (natChars now.year ++ '-' :: ms))) :=
      not_mem_append_of hYp (not_mem_cons_of (by decide) hA3p)
    have ht4eq : natChars now.year ++ '-' ::
        (natChars now.year ++ '-' ::
          (natChars now.year ++ '-' :: (natChars now.year ++ '-' :: (ms ++ '.' :: ds)))) =
        (natChars now.year ++ '-' ::
          (natChars now.year ++ '-' ::
            (natChars now.year ++ '-' :: (natChars now.year ++ '-' :: ms)))) ++ '.' :: ds := by
      simp [List.append_assoc]
    have hsp4 : splitOnChar '.'
        (natChars now.year ++ '-' ::
          (natChars now.year ++ '-' ::
            (natChars now.year ++ '-' :: (natChars now.year ++ '-' :: (ms ++ '.' :: ds))))) =
        [natChars now.year ++ '-' ::
          (natChars now.year ++ '-' ::
            (natChars now.year ++ '-' :: (natChars now.year ++ '-' :: ms))), ds] := by
      rw [ht4eq, splitOnChar_append_sep ds hA4p, splitOnChar_not_mem hds2]
    have hmA4 : monthMatch (natChars now.year ++ '-' ::
        (natChars now.year ++ '-' ::
          (natChars now.year ++ '-' :: (natChars now.year ++ '-' :: ms)))) = none :=
      monthMatch_none_of_not_digit (by decide)
        (List.mem_append.mpr (Or.inr (List.mem_cons_self _ _)))
    have hparse4 : strptimeModel false '.'
        (natChars now.year ++ '-' ::
          (natChars now.year ++ '-' ::
            (natChars now.year ++ '-' :: (natChars now.year ++ '-' :: (ms ++ '.' :: ds))))) =
        none := by
      simp only [strptimeModel, hsp4, hmA4]
    unfold is_recent_article
    rw [hclean]
    simp only [fmtList, recentLoop, hstep1, hparse1, hstep2, hparse2, hstep3,
      hparse3, hstep4, hparse4]

/-- Witness for C2: "01-15" at "now" = 2024-02-01 parses as 2024-01-15 and is
within the 30-day window. -/
theorem C2_witness : is_recent_article nowFeb2024 ("01-15".toList) = true :=
  (C2_monthday_parsing.1 nowFeb2024 ("01-15".toList) ("01".toList) ("15".toList)
    1 15 (by decide) (by decide) (by decide) (by decide) (by decide)
    (by decide)).trans (by decide)

end EduNews
